import Mathlib

/-!
Shallow embedding of the `spotify-to-slack` reconciler script
(`scripts/ui-build.ts`, third concatenated document: the Bun/TypeScript
script that polls Spotify and reconciles the user's Slack status).

Conventions of the embedding:
* JavaScript strings are Lean `String`s; `s.trim()` is `jsTrim` below.
* JSON numbers and epoch-second timestamps are integers (`ℤ`); none of
  the verified behaviour distinguishes fractional values.
* A fallible external call (process exec, HTTP fetch + JSON parse) is an
  `Except String α` value supplied by an environment record; `Except.error`
  models a thrown exception.
* `undefined`-able fields are `Option`s.
* One run of `main` is a pure function from the environment (the outcomes
  of every external call, plus the clock) to a `RunResult` recording the
  remote calls issued, the caches persisted, and the process exit code.
-/

/-- JS `s.trim()`: drop leading and trailing whitespace.  Implemented on the
character list so that it reduces inside the kernel. -/
def jsTrim (s : String) : String :=
  ⟨((s.data.dropWhile Char.isWhitespace).reverse.dropWhile
      Char.isWhitespace).reverse⟩

/-- JS `String.prototype.includes` restricted to what the script needs:
`listStarts pat s` is true when `pat` is an initial segment of `s`. -/
def listStarts : List Char → List Char → Bool
  | [], _ => true
  | _ :: _, [] => false
  | p :: ps, c :: cs => p == c && listStarts ps cs

/-- Substring occurrence on character lists: some suffix of `s` starts with `pat`. -/
def listHasSub (pat : List Char) : List Char → Bool
  | [] => listStarts pat []
  | c :: cs => listStarts pat (c :: cs) || listHasSub pat cs

/-- JS `s.includes(pat)`. -/
def strIncludes (s pat : String) : Bool :=
  listHasSub pat.data s.data

/-- `normalizeEmoji` from the script: `(emoji ?? "").trim()`. -/
def normalizeEmoji (emoji : Option String) : String :=
  jsTrim (emoji.getD "")

/-- `normalizeText` from the script: `(text ?? "").trim()`. -/
def normalizeText (text : Option String) : String :=
  jsTrim (text.getD "")

/-- The `StatusEmojiConfig` pick of the runtime config. -/
structure StatusEmojiConfig where
  statusEmoji : String
  statusEmojiUnicode : String
deriving DecidableEq

/-- `isStatusOwnedByScript(text, emoji, config)` from the script.  Note that
the emoji is normalized but the text is compared raw. -/
def isStatusOwnedByScript (text : String) (emoji : String)
    (config : StatusEmojiConfig) : Bool :=
  let normalizedEmoji := normalizeEmoji (some emoji)
  if normalizedEmoji == config.statusEmoji
      || normalizedEmoji == config.statusEmojiUnicode then
    if text == "" || strIncludes text " - " then true else false
  else false

/-- `isEmptySlackStatus(text, emoji)` from the script. -/
def isEmptySlackStatus (text : String) (emoji : String) : Bool :=
  normalizeText (some text) == "" && normalizeEmoji (some emoji) == ""

/-- `isSafeToOverrideWhenPlayingTrack(statusText, statusEmoji)` from the
script: either field (raw, not re-normalized) is the empty string. -/
def isSafeToOverrideWhenPlayingTrack (statusText : String)
    (statusEmoji : String) : Bool :=
  statusText == "" || statusEmoji == ""

/-- Spotify player state as returned by `getSpotifyState`. -/
inductive SpotifyState where
  | playing
  | paused
  | stopped
  | unknown
deriving DecidableEq

/-- `SlackProfile`: the optional status fields of `users.profile.get`. -/
structure SlackProfile where
  status_text : Option String
  status_emoji : Option String
  status_expiration : Option ℤ
deriving DecidableEq

/-- `SlackProfileGetResponse`. -/
structure ProfileGetResponse where
  ok : Bool
  error : Option String
  profile : Option SlackProfile
deriving DecidableEq

/-- Response of `users.profile.set`. -/
structure SetResponse where
  ok : Bool
  error : Option String
deriving DecidableEq

/-- `Cache.lastNonEmptyNonOwned` entry. -/
structure ForeignEntry where
  text : String
  emoji : String
  expiration : ℤ
  observedAt : ℤ
deriving DecidableEq

/-- `Cache.emptyRead` entry. -/
structure EmptyReadEntry where
  lastSeenAt : ℤ
  consecutiveCount : ℤ
deriving DecidableEq

/-- `Cache.lastSetByScript` entry. -/
structure SetByScriptEntry where
  text : String
  emoji : String
  expiration : ℤ
  setAt : ℤ
deriving DecidableEq

/-- The persisted cache record. -/
structure Cache where
  updatedAt : ℤ
  lastNonEmptyNonOwned : Option ForeignEntry
  emptyRead : Option EmptyReadEntry
  lastSetByScript : Option SetByScriptEntry
deriving DecidableEq

/-- The raw `Config` read from the config file (optional fields are `Option`). -/
structure Config where
  slackToken : String
  pollIntervalSeconds : Option ℤ
  statusEmoji : Option String
  statusEmojiUnicode : Option String
  statusTtlSeconds : Option ℤ
  alwaysOverride : Option Bool
  requireTwoEmptyReadsBeforeOverride : Option Bool
  emptyReadConfirmWindowSeconds : Option ℤ
  cacheMaxAgeSeconds : Option ℤ
  logMaxLines : Option ℤ
  logKeepLines : Option ℤ
  stdoutLogPath : Option String
  stderrLogPath : Option String

/-- `RuntimeConfig` from the script: `StatusEmojiConfig` plus the defaulted
numeric/flag fields. -/
structure RuntimeConfig extends StatusEmojiConfig where
  statusTtlSeconds : ℤ
  alwaysOverride : Bool
  logMaxLines : ℤ
  logKeepLines : ℤ
  stdoutLogPath : String
  stderrLogPath : String
  cacheMaxAgeSeconds : ℤ
  requireTwoEmptyReadsBeforeOverride : Bool
  emptyReadConfirmWindowSeconds : ℤ

/-- `DEFAULT_CONFIG` from `config-schema.ts` (the fields the script uses). -/
structure DefaultConfig where
  statusEmoji : String
  statusEmojiUnicode : String
  statusTtlSeconds : ℤ
  alwaysOverride : Bool
  requireTwoEmptyReadsBeforeOverride : Bool
  emptyReadConfirmWindowSeconds : ℤ
  cacheMaxAgeSeconds : ℤ
  logMaxLines : ℤ
  logKeepLines : ℤ

def DEFAULT_CONFIG : DefaultConfig :=
  { statusEmoji := ":headphones:"
    statusEmojiUnicode := "🎧"
    statusTtlSeconds := 120
    alwaysOverride := false
    requireTwoEmptyReadsBeforeOverride := true
    emptyReadConfirmWindowSeconds := 600
    cacheMaxAgeSeconds := 600
    logMaxLines := 5000
    logKeepLines := 3000 }

/-- The `runtimeConfig` record built inline at the start of `main`:
each field is `config.field ?? DEFAULT_CONFIG.field`, and the two log paths
default to `path.join(repositoryDirectory, ...)`. -/
def mkRuntimeConfig (config : Config) (repositoryDirectory : String) :
    RuntimeConfig :=
  { statusEmoji := config.statusEmoji.getD DEFAULT_CONFIG.statusEmoji
    statusEmojiUnicode :=
      config.statusEmojiUnicode.getD DEFAULT_CONFIG.statusEmojiUnicode
    statusTtlSeconds :=
      config.statusTtlSeconds.getD DEFAULT_CONFIG.statusTtlSeconds
    alwaysOverride := config.alwaysOverride.getD DEFAULT_CONFIG.alwaysOverride
    logMaxLines := config.logMaxLines.getD DEFAULT_CONFIG.logMaxLines
    logKeepLines := config.logKeepLines.getD DEFAULT_CONFIG.logKeepLines
    stdoutLogPath :=
      config.stdoutLogPath.getD (repositoryDirectory ++ "/spotify-status.log")
    stderrLogPath :=
      config.stderrLogPath.getD
        (repositoryDirectory ++ "/spotify-status.error.log")
    cacheMaxAgeSeconds :=
      config.cacheMaxAgeSeconds.getD DEFAULT_CONFIG.cacheMaxAgeSeconds
    requireTwoEmptyReadsBeforeOverride :=
      config.requireTwoEmptyReadsBeforeOverride.getD
        DEFAULT_CONFIG.requireTwoEmptyReadsBeforeOverride
    emptyReadConfirmWindowSeconds :=
      config.emptyReadConfirmWindowSeconds.getD
        DEFAULT_CONFIG.emptyReadConfirmWindowSeconds }

/-- `osascript(script)`: run the AppleScript and trim its stdout.  The
`Except` argument is the outcome of the underlying process call; a thrown
exception propagates. -/
def osascript (execResult : Except String String) : Except String String :=
  execResult.map jsTrim

/-- `isSpotifyRunning()`: `pgrep Spotify` succeeding means running; any
exception is caught and returns `false`. -/
def isSpotifyRunning (pgrepResult : Except String Unit) : Bool :=
  match pgrepResult with
  | .ok _ => true
  | .error _ => false

/-- `getSpotifyState()`: queries the player state via `osascript`; any
exception is caught and yields `"unknown"`, as does an unrecognized string. -/
def getSpotifyState (stateExecResult : Except String String) : SpotifyState :=
  match osascript stateExecResult with
  | .error _ => SpotifyState.unknown
  | .ok state =>
    if state == "playing" then SpotifyState.playing
    else if state == "paused" then SpotifyState.paused
    else if state == "stopped" then SpotifyState.stopped
    else SpotifyState.unknown

/-- `getSpotifyTrack()`: queries `Artist - Track` via `osascript`.  There is
no `try`/`catch` here: a failure propagates to the caller. -/
def getSpotifyTrack (trackExecResult : Except String String) :
    Except String String :=
  osascript trackExecResult

/-- Outcome of `getSlackProfileWithRetry`: the returned (or thrown) value,
the number of attempts actually made, and the backoff delays slept (ms). -/
structure RetryOutcome where
  result : Except String ProfileGetResponse
  attemptsMade : Nat
  delays : List Nat

/-- Loop body of `getSlackProfileWithRetry`: `attempt` is the 1-based attempt
counter, `remaining` the attempts left out of `maxAttempts = 3`.  On an
exception the loop logs, sleeps `250 * attempt` ms and retries; when the
attempts are exhausted the last error is rethrown.  Any parsed response is
returned at once regardless of its `ok` flag. -/
def retryAux (attempts : Nat → Except String ProfileGetResponse)
    (attempt : Nat) (lastError : String) : Nat → RetryOutcome
  | 0 => { result := .error lastError, attemptsMade := 0, delays := [] }
  | remaining + 1 =>
    match attempts attempt with
    | .ok response =>
      { result := .ok response, attemptsMade := 1, delays := [] }
    | .error e =>
      let rest := retryAux attempts (attempt + 1) e remaining
      { result := rest.result
        attemptsMade := rest.attemptsMade + 1
        delays := 250 * attempt :: rest.delays }

/-- `getSlackProfileWithRetry(token)`: up to `maxAttempts = 3` calls of
`users.profile.get`, indexed from attempt 1. -/
def getSlackProfileWithRetry
    (attempts : Nat → Except String ProfileGetResponse) : RetryOutcome :=
  retryAux attempts 1 "" 3

/-- JSON values, as produced by `JSON.parse` (numbers modelled as integers,
which are always finite). -/
inductive Json where
  | null
  | bool (b : Bool)
  | num (q : ℤ)
  | str (s : String)
  | arr (items : List Json)
  | obj (fields : List (String × Json))

/-- Object field lookup. -/
def jsonLookup (fields : List (String × Json)) (key : String) : Option Json :=
  (fields.find? (fun kv => kv.fst == key)).map (fun kv => kv.snd)

/-- `z.number().finite().min(0)`: a JSON number that is nonnegative. -/
def parseNonNegNum (v : Json) : Except String ℤ :=
  match v with
  | .num q => if 0 ≤ q then .ok q else .error "Must be a non-negative number."
  | _ => .error "Expected number"

/-- `z.number().int().min(0)`: on the integer number model the `int()` check
is vacuous, leaving the nonnegativity bound. -/
def parseNonNegInt (v : Json) : Except String ℤ :=
  match v with
  | .num q =>
    if 0 ≤ q then .ok q else .error "Expected nonnegative integer"
  | _ => .error "Expected number"

/-- `z.string()`. -/
def parseStr (v : Json) : Except String String :=
  match v with
  | .str s => .ok s
  | _ => .error "Expected string"

/-- An optional object field: absent is fine, present must parse (zod
`optional()` does not accept `null`). -/
def parseOptField (fields : List (String × Json)) (key : String)
    (p : Json → Except String α) : Except String (Option α) :=
  match jsonLookup fields key with
  | none => .ok none
  | some v => (p v).map some

/-- A required object field. -/
def parseReqField (fields : List (String × Json)) (key : String)
    (p : Json → Except String α) : Except String α :=
  match jsonLookup fields key with
  | none => .error "Required"
  | some v => p v

/-- The `lastNonEmptyNonOwned` sub-schema (unknown keys are stripped by zod,
hence simply ignored here). -/
def parseForeignEntry (v : Json) : Except String ForeignEntry :=
  match v with
  | .obj fields => do
    let text ← parseReqField fields "text" parseStr
    let emoji ← parseReqField fields "emoji" parseStr
    let expiration ← parseReqField fields "expiration" parseNonNegNum
    let observedAt ← parseReqField fields "observedAt" parseNonNegNum
    .ok { text := text, emoji := emoji, expiration := expiration
          observedAt := observedAt }
  | _ => .error "Expected object"

/-- The `emptyRead` sub-schema. -/
def parseEmptyReadEntry (v : Json) : Except String EmptyReadEntry :=
  match v with
  | .obj fields => do
    let lastSeenAt ← parseReqField fields "lastSeenAt" parseNonNegNum
    let consecutiveCount ← parseReqField fields "consecutiveCount"
      parseNonNegInt
    .ok { lastSeenAt := lastSeenAt, consecutiveCount := consecutiveCount }
  | _ => .error "Expected object"

/-- The `lastSetByScript` sub-schema. -/
def parseSetByScriptEntry (v : Json) : Except String SetByScriptEntry :=
  match v with
  | .obj fields => do
    let text ← parseReqField fields "text" parseStr
    let emoji ← parseReqField fields "emoji" parseStr
    let expiration ← parseReqField fields "expiration" parseNonNegNum
    let setAt ← parseReqField fields "setAt" parseNonNegNum
    .ok { text := text, emoji := emoji, expiration := expiration
          setAt := setAt }
  | _ => .error "Expected object"

/-- `parseCache(payload)`: `cacheSchema.safeParse` followed by the throw on
failure.  The top level is `z.object({...}).passthrough()`: it must be an
object, unknown keys are tolerated, and each declared key is validated. -/
def parseCache (payload : Json) : Except String Cache :=
  match payload with
  | .obj fields => do
    let updatedAt ← parseReqField fields "updatedAt" parseNonNegNum
    let lastNonEmptyNonOwned ← parseOptField fields "lastNonEmptyNonOwned"
      parseForeignEntry
    let emptyRead ← parseOptField fields "emptyRead" parseEmptyReadEntry
    let lastSetByScript ← parseOptField fields "lastSetByScript"
      parseSetByScriptEntry
    .ok { updatedAt := updatedAt
          lastNonEmptyNonOwned := lastNonEmptyNonOwned
          emptyRead := emptyRead
          lastSetByScript := lastSetByScript }
  | _ => .error "Cache file is corrupted or invalid."

/-- State of the cache file on disk: `none` when the file does not exist,
`some none` when its contents are not valid JSON (`JSON.parse` throws), and
`some (some v)` when they parse to the JSON value `v`. -/
def CacheFileState : Type := Option (Option Json)

/-- The fresh cache `loadCache` falls back to: `{ updatedAt: nowSec() }`. -/
def freshCache (now : ℤ) : Cache :=
  { updatedAt := now, lastNonEmptyNonOwned := none, emptyRead := none
    lastSetByScript := none }

/-- `loadCache(repositoryDirectory)`: a missing file gives a fresh cache; a
read, JSON-parse or schema failure is caught, logged and also gives a fresh
cache. -/
def loadCache (file : CacheFileState) (now : ℤ) : Cache :=
  match file with
  | none => freshCache now
  | some none => freshCache now
  | some (some payload) =>
    match parseCache payload with
    | .ok cache => cache
    | .error _ => freshCache now

/-- Status snapshot text, as computed in `main`:
`normalizeText(profileResponse.profile?.status_text)`. -/
def statusTextOf (r : ProfileGetResponse) : String :=
  normalizeText (r.profile.bind SlackProfile.status_text)

/-- Status snapshot emoji, as computed in `main`. -/
def statusEmojiOf (r : ProfileGetResponse) : String :=
  normalizeEmoji (r.profile.bind SlackProfile.status_emoji)

/-- Status snapshot expiration, as computed in `main`:
`profileResponse.profile?.status_expiration ?? 0`. -/
def statusExpirationOf (r : ProfileGetResponse) : ℤ :=
  (r.profile.bind SlackProfile.status_expiration).getD 0

/-- The cache update before the first save in `main`: when the snapshot is
not owned and both fields are non-empty, overwrite `lastNonEmptyNonOwned`
with the snapshot and the current timestamp; otherwise leave the cache
unchanged. -/
def updateForeignCache (cache : Cache) (owned : Bool)
    (statusText statusEmoji : String) (statusExpiration now : ℤ) : Cache :=
  if !owned && statusText != "" && statusEmoji != "" then
    { cache with
        lastNonEmptyNonOwned := some
          { text := statusText, emoji := statusEmoji
            expiration := statusExpiration, observedAt := now } }
  else cache

/-- `saveCache`: sets `updatedAt` to the current time and writes the record;
the returned value is both what is persisted and what stays in memory. -/
def saveStamp (cache : Cache) (now : ℤ) : Cache :=
  { cache with updatedAt := now }

/-- The payload of a `users.profile.set` call. -/
structure SetPayload where
  status_text : String
  status_emoji : String
  status_expiration : ℤ
deriving DecidableEq

/-- Environment of one run: the outcome of every external interaction.
`profileAttempts i` is the outcome of the `i`-th (1-based) `users.profile.get`
call; `censor` is the external text-filter capability. -/
structure Env where
  repositoryDirectory : String
  configLoad : Except String Config
  cacheFile : CacheFileState
  pgrep : Except String Unit
  stateExec : Except String String
  profileAttempts : Nat → Except String ProfileGetResponse
  trackExec : Except String String
  setCall : Except String SetResponse
  censor : String → String
  now : ℤ

/-- Observable outcome of one run: profile-read attempts made and backoff
delays slept, the `users.profile.set` calls issued (in order), the cache
records persisted (in order), the in-memory cache at exit (`none` when the
run died before `loadCache`), and the process exit code. -/
structure RunResult where
  profileReadAttempts : Nat
  readDelays : List Nat
  setCalls : List SetPayload
  savedCaches : List Cache
  finalCache : Option Cache
  exitCode : Nat

/-- The body of `main` after config and cache loading: the decision pipeline
of the reconciler.  An uncaught exception (retry exhaustion, track-query
failure, non-JSON set response) aborts the run; `main().catch` then sets
`process.exitCode = 1`. -/
def reconcile (rc : RuntimeConfig) (env : Env) (cache : Cache) : RunResult :=
  if isSpotifyRunning env.pgrep then
    let playerState := getSpotifyState env.stateExec
    let retry := getSlackProfileWithRetry env.profileAttempts
    match retry.result with
    | .error _ =>
      { profileReadAttempts := retry.attemptsMade, readDelays := retry.delays
        setCalls := [], savedCaches := [], finalCache := some cache
        exitCode := 1 }
    | .ok profileResponse =>
      if !profileResponse.ok then
        { profileReadAttempts := retry.attemptsMade, readDelays := retry.delays
          setCalls := [], savedCaches := [], finalCache := some cache
          exitCode := 0 }
      else
        let statusText := statusTextOf profileResponse
        let statusEmoji := statusEmojiOf profileResponse
        let statusExpiration := statusExpirationOf profileResponse
        let isOwnedByScript :=
          isStatusOwnedByScript statusText statusEmoji rc.toStatusEmojiConfig
        let isSafeToOverride :=
          isSafeToOverrideWhenPlayingTrack statusText statusEmoji
            || isOwnedByScript
        let cache1 :=
          saveStamp
            (updateForeignCache cache isOwnedByScript statusText statusEmoji
              statusExpiration env.now) env.now
        if playerState ≠ SpotifyState.playing then
          { profileReadAttempts := retry.attemptsMade
            readDelays := retry.delays, setCalls := []
            savedCaches := [cache1], finalCache := some cache1, exitCode := 0 }
        else if !isSafeToOverride && !rc.alwaysOverride then
          { profileReadAttempts := retry.attemptsMade
            readDelays := retry.delays, setCalls := []
            savedCaches := [cache1], finalCache := some cache1, exitCode := 0 }
        else
          match getSpotifyTrack env.trackExec with
          | .error _ =>
            { profileReadAttempts := retry.attemptsMade
              readDelays := retry.delays, setCalls := []
              savedCaches := [cache1], finalCache := some cache1
              exitCode := 1 }
          | .ok rawTrackName =>
            let censoredTrackName := env.censor rawTrackName
            let expirationEpoch := env.now + rc.statusTtlSeconds
            let payload : SetPayload :=
              { status_text := censoredTrackName
                status_emoji := rc.statusEmoji
                status_expiration := expirationEpoch }
            match env.setCall with
            | .error _ =>
              { profileReadAttempts := retry.attemptsMade
                readDelays := retry.delays, setCalls := [payload]
                savedCaches := [cache1], finalCache := some cache1
                exitCode := 1 }
            | .ok setResponse =>
              if !setResponse.ok then
                { profileReadAttempts := retry.attemptsMade
                  readDelays := retry.delays, setCalls := [payload]
                  savedCaches := [cache1], finalCache := some cache1
                  exitCode := 0 }
              else
                let cache2 :=
                  saveStamp
                    { cache1 with
                        lastSetByScript := some
                          { text := censoredTrackName
                            emoji := rc.statusEmoji
                            expiration := expirationEpoch
                            setAt := env.now } } env.now
                { profileReadAttempts := retry.attemptsMade
                  readDelays := retry.delays, setCalls := [payload]
                  savedCaches := [cache1, cache2], finalCache := some cache2
                  exitCode := 0 }
  else
    { profileReadAttempts := 0, readDelays := [], setCalls := []
      savedCaches := [], finalCache := some cache, exitCode := 0 }

/-- One whole run of `main` under `main().catch`: config loading (fatal on
failure), default application, cache loading (never fatal), then the
reconciliation pipeline. -/
def mainRun (env : Env) : RunResult :=
  match env.configLoad with
  | .error _ =>
    { profileReadAttempts := 0, readDelays := [], setCalls := []
      savedCaches := [], finalCache := none, exitCode := 1 }
  | .ok config =>
    let runtimeConfig := mkRuntimeConfig config env.repositoryDirectory
    let cache := loadCache env.cacheFile env.now
    reconcile runtimeConfig env cache

/-- The spec's description (§4.1) of `isOwnedByScript`: the normalized emoji
equals a configured sentinel and the normalized text is empty or contains
the literal substring `" - "`. -/
def specIsOwnedByScript (text emoji : String) (config : StatusEmojiConfig) :
    Bool :=
  (jsTrim emoji == config.statusEmoji
      || jsTrim emoji == config.statusEmojiUnicode)
    && (jsTrim text == "" || strIncludes (jsTrim text) " - ")

/-- The spec's description (§4.1) of `isSafeToOverrideWhenPlaying`: the
normalized text is empty or the normalized emoji is empty. -/
def specIsSafeToOverride (text emoji : String) : Bool :=
  jsTrim text == "" || jsTrim emoji == ""

/-- The condition claim C1 asserts to be equivalent to the set call being
issued: Spotify running, the remote read succeeding with `ok:true`, the
player state exactly `"playing"`, and the snapshot safe-to-override, owned,
or `alwaysOverride` set. -/
def claimedSetCondition (rc : RuntimeConfig) (env : Env) : Bool :=
  isSpotifyRunning env.pgrep &&
    match (getSlackProfileWithRetry env.profileAttempts).result with
    | .error _ => false
    | .ok r =>
      r.ok && (getSpotifyState env.stateExec == SpotifyState.playing)
        && (isSafeToOverrideWhenPlayingTrack (statusTextOf r) (statusEmojiOf r)
            || isStatusOwnedByScript (statusTextOf r) (statusEmojiOf r)
                rc.toStatusEmojiConfig
            || rc.alwaysOverride)

/-- Replace the `emptyRead` field of a cache. -/
def withEmptyRead (cache : Cache) (e : Option EmptyReadEntry) : Cache :=
  { cache with emptyRead := e }

/-- Replace the `emptyRead` field of every cache a run result carries. -/
def withEmptyReadResult (res : RunResult) (e : Option EmptyReadEntry) :
    RunResult :=
  { res with
      savedCaches := res.savedCaches.map (fun c => withEmptyRead c e)
      finalCache := res.finalCache.map (fun c => withEmptyRead c e) }

/-- A config file carrying only the mandatory token. -/
def exampleConfig : Config :=
  { slackToken := "token-abc"
    pollIntervalSeconds := none, statusEmoji := none
    statusEmojiUnicode := none, statusTtlSeconds := none
    alwaysOverride := none, requireTwoEmptyReadsBeforeOverride := none
    emptyReadConfirmWindowSeconds := none, cacheMaxAgeSeconds := none
    logMaxLines := none, logKeepLines := none, stdoutLogPath := none
    stderrLogPath := none }

/-- The default emoji sentinels. -/
def exampleEmojiConfig : StatusEmojiConfig :=
  { statusEmoji := ":headphones:", statusEmojiUnicode := "🎧" }

/-- The fully defaulted runtime config of the example environment. -/
def exampleRuntimeConfig : RuntimeConfig :=
  mkRuntimeConfig exampleConfig "/repo"

/-- A successful `users.profile.get` response with an absent profile. -/
def emptyOkResponse : ProfileGetResponse :=
  { ok := true, error := none, profile := none }

/-- A response whose snapshot is a fully populated foreign status. -/
def lunchResponse : ProfileGetResponse :=
  { ok := true, error := none
    profile := some
      { status_text := some "Lunch", status_emoji := some ":pizza:"
        status_expiration := some 500 } }

/-- A happy-path environment: config present, Spotify playing, empty Slack
status, track query and set call succeeding. -/
def exampleEnv : Env :=
  { repositoryDirectory := "/repo"
    configLoad := .ok exampleConfig
    cacheFile := none
    pgrep := .ok ()
    stateExec := .ok "playing"
    profileAttempts := fun _ => .ok emptyOkResponse
    trackExec := .ok "Artist - Track"
    setCall := .ok { ok := true, error := none }
    censor := id
    now := 1000 }

/-- A config with the two empty-read fields replaced. -/
def configSettingFlags (c : Config) (b : Option Bool) (w : Option ℤ) :
    Config :=
  { c with requireTwoEmptyReadsBeforeOverride := b
           emptyReadConfirmWindowSeconds := w }

/-- An environment with the config-load outcome replaced. -/
def envWithConfig (env : Env) (cl : Except String Config) : Env :=
  { env with configLoad := cl }

theorem updateForeignCache_lastSetByScript (cache : Cache) (o : Bool)
    (t e : String) (x n : ℤ) :
    (updateForeignCache cache o t e x n).lastSetByScript =
      cache.lastSetByScript := by
  unfold updateForeignCache; split <;> rfl

theorem updateForeignCache_emptyRead (cache : Cache) (o : Bool)
    (t e : String) (x n : ℤ) :
    (updateForeignCache cache o t e x n).emptyRead = cache.emptyRead := by
  unfold updateForeignCache; split <;> rfl

theorem updateForeignCache_withEmptyRead (cache : Cache)
    (er : Option EmptyReadEntry) (o : Bool) (t e : String) (x n : ℤ) :
    updateForeignCache (withEmptyRead cache er) o t e x n =
      withEmptyRead (updateForeignCache cache o t e x n) er := by
  unfold updateForeignCache withEmptyRead; split <;> rfl

theorem saveStamp_withEmptyRead (cache : Cache) (er : Option EmptyReadEntry)
    (n : ℤ) :
    saveStamp (withEmptyRead cache er) n = withEmptyRead (saveStamp cache n) er :=
  rfl


/-- C2, counterexample: for text `" "` (whitespace only) and the sentinel
emoji, the normalized text is empty, so the claim demands `true`; but
`isStatusOwnedByScript` compares the raw text and returns `false`. -/
theorem c2_counterexample :
    isStatusOwnedByScript " " ":headphones:" exampleEmojiConfig = false
      ∧ specIsOwnedByScript " " ":headphones:" exampleEmojiConfig = true := by
  decide

/-- C2, amended: `isStatusOwnedByScript(t, e, cfg)` returns true iff the
normalized (trimmed) emoji equals the configured `statusEmoji` or
`statusEmojiUnicode` sentinel and the RAW (untrimmed) text is empty or
contains the literal substring `" - "`; for any emoji whose normalized form
matches neither sentinel it returns false regardless of text. -/
theorem c2_amended (t e : String) (cfg : StatusEmojiConfig) :
    isStatusOwnedByScript t e cfg =
      ((jsTrim e == cfg.statusEmoji || jsTrim e == cfg.statusEmojiUnicode)
        && (t == "" || strIncludes t " - ")) := by
  show (if (jsTrim e == cfg.statusEmoji
          || jsTrim e == cfg.statusEmojiUnicode) = true then
        if (t == "" || strIncludes t " - ") = true then true else false
      else false) = _
  cases h1 : (jsTrim e == cfg.statusEmoji || jsTrim e == cfg.statusEmojiUnicode)
    <;> cases h2 : (t == "" || strIncludes t " - ") <;> simp [h1, h2]

/-- C3, counterexample: for text `" "` and emoji `":pizza:"`, the normalized
text is empty, so the claim demands `isSafeToOverrideWhenPlaying` be true;
but the function compares the raw fields and returns `false`. -/
theorem c3_counterexample :
    isSafeToOverrideWhenPlayingTrack " " ":pizza:" = false
      ∧ jsTrim " " = "" := by decide

/-- C3, amended: `isEmptySlackStatus` is true iff both normalized fields are
empty; `isSafeToOverrideWhenPlayingTrack` is true iff the RAW text or the RAW
emoji is the empty string (no trimming of its own); and on the pair of empty
strings both predicates hold. -/
theorem c3_amended :
    (∀ t e, isEmptySlackStatus t e = (jsTrim t == "" && jsTrim e == ""))
  ∧ (∀ t e, isSafeToOverrideWhenPlayingTrack t e = (t == "" || e == ""))
  ∧ isEmptySlackStatus "" "" = true
  ∧ isSafeToOverrideWhenPlayingTrack "" "" = true :=
  ⟨fun _ _ => rfl, fun _ _ => rfl, by decide, by decide⟩

theorem jsonLookup_cons_ne (k : String) (v : Json)
    (fields : List (String × Json)) (key : String) (h : k ≠ key) :
    jsonLookup ((k, v) :: fields) key = jsonLookup fields key := by
  have hb : (k == key) = false := beq_eq_false_iff_ne.mpr h
  simp [jsonLookup, List.find?, hb]

theorem parseCache_cons_ne (k : String) (v : Json)
    (fields : List (String × Json))
    (h1 : k ≠ "updatedAt") (h2 : k ≠ "lastNonEmptyNonOwned")
    (h3 : k ≠ "emptyRead") (h4 : k ≠ "lastSetByScript") :
    parseCache (Json.obj ((k, v) :: fields)) =
      parseCache (Json.obj fields) := by
  simp only [parseCache, parseReqField, parseOptField,
    jsonLookup_cons_ne k v fields _ h1, jsonLookup_cons_ne k v fields _ h2,
    jsonLookup_cons_ne k v fields _ h3, jsonLookup_cons_ne k v fields _ h4]

/-- C9: loading the cache never fails the run — for a missing file, non-JSON
content, or a schema-invalid record, `loadCache` returns a fresh cache with
only `updatedAt` set to the current time; and a cache record prefixed with
an unknown extra field parses exactly as the record without it. -/
theorem c9_loadcache_resilience :
    (∀ now : ℤ, loadCache none now =
      { updatedAt := now, lastNonEmptyNonOwned := none, emptyRead := none
        lastSetByScript := none })
  ∧ (∀ now : ℤ, loadCache (some none) now =
      { updatedAt := now, lastNonEmptyNonOwned := none, emptyRead := none
        lastSetByScript := none })
  ∧ (∀ (payload : Json) (now : ℤ) (e : String),
      parseCache payload = .error e →
      loadCache (some (some payload)) now =
        { updatedAt := now, lastNonEmptyNonOwned := none, emptyRead := none
          lastSetByScript := none })
  ∧ (∀ (k : String) (v : Json) (fields : List (String × Json)) (c : Cache),
      parseCache (Json.obj fields) = .ok c →
      k ≠ "updatedAt" → k ≠ "lastNonEmptyNonOwned" → k ≠ "emptyRead" →
      k ≠ "lastSetByScript" →
      parseCache (Json.obj ((k, v) :: fields)) = .ok c) := by
  refine ⟨fun _ => rfl, fun _ => rfl, fun payload now e h => ?_,
    fun k v fields c hok h1 h2 h3 h4 => ?_⟩
  · simp [loadCache, h, freshCache]
  · rw [parseCache_cons_ne k v fields h1 h2 h3 h4, hok]

/-- C9 witness: a corrupt payload yields the fresh cache, and a record with
an extra unknown field parses to the same cache as without it. -/
theorem c9_witness :
    loadCache (some (some (Json.num 3))) 7 =
      { updatedAt := 7, lastNonEmptyNonOwned := none, emptyRead := none
        lastSetByScript := none }
  ∧ parseCache (Json.obj (("extra", Json.str "x") ::
        [("updatedAt", Json.num 5)])) =
      .ok { updatedAt := 5, lastNonEmptyNonOwned := none, emptyRead := none
            lastSetByScript := none } :=
  ⟨c9_loadcache_resilience.2.2.1 (Json.num 3) 7
      "Cache file is corrupted or invalid." rfl,
   c9_loadcache_resilience.2.2.2 "extra" (Json.str "x")
      [("updatedAt", Json.num 5)] _ rfl (by decide) (by decide) (by decide)
      (by decide)⟩
/-- C5: the profile read is attempted at most 3 times; any parsed response
(regardless of its `ok` flag) is returned on the attempt that produced it,
with backoff `250 ms × attempt` slept after each failed attempt; an `ok:false`
response terminates the run with no set call and no cache write; three
consecutive transport/parse failures end the run (fatal log, exit code 1)
with no set call and no cache write. -/
theorem c5_profile_read_retry :
    (∀ attempts, (getSlackProfileWithRetry attempts).attemptsMade ≤ 3)
  ∧ (∀ attempts r, attempts 1 = .ok r →
      getSlackProfileWithRetry attempts =
        { result := .ok r, attemptsMade := 1, delays := [] })
  ∧ (∀ attempts e1 r, attempts 1 = .error e1 → attempts 2 = .ok r →
      getSlackProfileWithRetry attempts =
        { result := .ok r, attemptsMade := 2, delays := [250] })
  ∧ (∀ attempts e1 e2 r, attempts 1 = .error e1 → attempts 2 = .error e2 →
      attempts 3 = .ok r →
      getSlackProfileWithRetry attempts =
        { result := .ok r, attemptsMade := 3, delays := [250, 500] })
  ∧ (∀ attempts e1 e2 e3, attempts 1 = .error e1 → attempts 2 = .error e2 →
      attempts 3 = .error e3 →
      getSlackProfileWithRetry attempts =
        { result := .error e3, attemptsMade := 3, delays := [250, 500, 750] })
  ∧ (∀ rc env cache r, isSpotifyRunning env.pgrep = true →
      (getSlackProfileWithRetry env.profileAttempts).result = .ok r →
      r.ok = false →
      (reconcile rc env cache).setCalls = []
        ∧ (reconcile rc env cache).savedCaches = []
        ∧ (reconcile rc env cache).exitCode = 0)
  ∧ (∀ rc env cache e, isSpotifyRunning env.pgrep = true →
      (getSlackProfileWithRetry env.profileAttempts).result = .error e →
      (reconcile rc env cache).setCalls = []
        ∧ (reconcile rc env cache).savedCaches = []
        ∧ (reconcile rc env cache).exitCode = 1) := by
  refine ⟨fun attempts => ?_, fun attempts r h1 => ?_,
    fun attempts e1 r h1 h2 => ?_, fun attempts e1 e2 r h1 h2 h3 => ?_,
    fun attempts e1 e2 e3 h1 h2 h3 => ?_,
    fun rc env cache r hrun hres hok => ?_,
    fun rc env cache e hrun hres => ?_⟩
  · unfold getSlackProfileWithRetry retryAux
    cases h1 : attempts 1
    all_goals simp [retryAux]
    all_goals cases h2 : attempts 2
    all_goals simp [retryAux]
    all_goals cases h3 : attempts 3
    all_goals simp [retryAux]
  · simp [getSlackProfileWithRetry, retryAux, h1]
  · simp [getSlackProfileWithRetry, retryAux, h1, h2]
  · simp [getSlackProfileWithRetry, retryAux, h1, h2, h3]
  · simp [getSlackProfileWithRetry, retryAux, h1, h2, h3]
  · simp [reconcile, hrun, hres, hok]
  · simp [reconcile, hrun, hres]

/-- C4: in every run that reaches classification (running, read returned,
`ok:true`), the first persisted cache is exactly the loaded cache passed
through `updateForeignCache` and stamped — so a cache record is persisted at
this point regardless of later gates; `lastNonEmptyNonOwned` is overwritten
with the observed snapshot plus the current timestamp exactly when the
snapshot is not owned and both fields are non-empty, and is unchanged
otherwise. -/
theorem c4_reconciler_cache_update (rc : RuntimeConfig) (env : Env)
    (cache : Cache) (r : ProfileGetResponse)
    (hrun : isSpotifyRunning env.pgrep = true)
    (hres : (getSlackProfileWithRetry env.profileAttempts).result = .ok r)
    (hok : r.ok = true) :
    (reconcile rc env cache).savedCaches.head? =
      some (saveStamp
        (updateForeignCache cache
          (isStatusOwnedByScript (statusTextOf r) (statusEmojiOf r)
            rc.toStatusEmojiConfig)
          (statusTextOf r) (statusEmojiOf r) (statusExpirationOf r) env.now)
        env.now)
  ∧ (isStatusOwnedByScript (statusTextOf r) (statusEmojiOf r)
        rc.toStatusEmojiConfig = false →
      statusTextOf r ≠ "" → statusEmojiOf r ≠ "" →
      (updateForeignCache cache
          (isStatusOwnedByScript (statusTextOf r) (statusEmojiOf r)
            rc.toStatusEmojiConfig)
          (statusTextOf r) (statusEmojiOf r) (statusExpirationOf r)
          env.now).lastNonEmptyNonOwned =
        some { text := statusTextOf r, emoji := statusEmojiOf r
               expiration := statusExpirationOf r, observedAt := env.now })
  ∧ (isStatusOwnedByScript (statusTextOf r) (statusEmojiOf r)
        rc.toStatusEmojiConfig = true ∨ statusTextOf r = ""
        ∨ statusEmojiOf r = "" →
      updateForeignCache cache
          (isStatusOwnedByScript (statusTextOf r) (statusEmojiOf r)
            rc.toStatusEmojiConfig)
          (statusTextOf r) (statusEmojiOf r) (statusExpirationOf r)
          env.now = cache) := by
  refine ⟨?_, fun howned ht he => ?_, fun h => ?_⟩
  · simp only [reconcile, hrun, hres, hok]
    repeat' split
    all_goals simp_all
  · simp [updateForeignCache, howned, ht, he]
  · unfold updateForeignCache
    rcases h with h | h | h <;> simp [h]

/-- C4 witness: Scenario C — foreign `Lunch`/`:pizza:` snapshot gets recorded
in `lastNonEmptyNonOwned` and the cache is persisted even though the override
gate later blocks the set call. -/
theorem c4_witness :
    (reconcile exampleRuntimeConfig
        { exampleEnv with profileAttempts := fun _ => .ok lunchResponse }
        (freshCache 900)).savedCaches.head? =
      some { updatedAt := 1000
             lastNonEmptyNonOwned := some
               { text := "Lunch", emoji := ":pizza:", expiration := 500
                 observedAt := 1000 }
             emptyRead := none, lastSetByScript := none } :=
  (c4_reconciler_cache_update exampleRuntimeConfig
    { exampleEnv with profileAttempts := fun _ => .ok lunchResponse }
    (freshCache 900) lunchResponse rfl rfl rfl).1

/-- C6: when the set step is reached, exactly one `users.profile.set` call is
issued, carrying the censored track label, the configured `statusEmoji` and
expiration `now + statusTtlSeconds`; on `ok:false` the run terminates after
the single classification save, leaving `lastSetByScript` unchanged; on
`ok:true` a second save overwrites `lastSetByScript` with exactly the values
sent plus the set timestamp. -/
theorem c6_set_call_and_cache (rc : RuntimeConfig) (env : Env) (cache : Cache)
    (r : ProfileGetResponse) (s : String)
    (hrun : isSpotifyRunning env.pgrep = true)
    (hres : (getSlackProfileWithRetry env.profileAttempts).result = .ok r)
    (hok : r.ok = true)
    (hplay : getSpotifyState env.stateExec = SpotifyState.playing)
    (hgate : (isSafeToOverrideWhenPlayingTrack (statusTextOf r)
          (statusEmojiOf r)
        || isStatusOwnedByScript (statusTextOf r) (statusEmojiOf r)
            rc.toStatusEmojiConfig
        || rc.alwaysOverride) = true)
    (htrack : env.trackExec = .ok s) :
    (reconcile rc env cache).setCalls =
      [{ status_text := env.censor (jsTrim s), status_emoji := rc.statusEmoji
         status_expiration := env.now + rc.statusTtlSeconds }]
  ∧ (∀ resp : SetResponse, env.setCall = .ok resp → resp.ok = false →
      (reconcile rc env cache).savedCaches.map Cache.lastSetByScript =
        [cache.lastSetByScript])
  ∧ (∀ resp : SetResponse, env.setCall = .ok resp → resp.ok = true →
      (reconcile rc env cache).savedCaches.map Cache.lastSetByScript =
        [cache.lastSetByScript,
         some { text := env.censor (jsTrim s), emoji := rc.statusEmoji
                expiration := env.now + rc.statusTtlSeconds
                setAt := env.now }]) := by
  refine ⟨?_, fun resp hset hsok => ?_, fun resp hset hsok => ?_⟩
  · simp only [reconcile, hrun, hres, hok, hplay, getSpotifyTrack, osascript,
      htrack, Except.map]
    repeat' split
    all_goals simp_all
  · simp only [reconcile, hrun, hres, hok, hplay, getSpotifyTrack, osascript,
      htrack, hset, Except.map]
    repeat' split
    all_goals simp_all [saveStamp, updateForeignCache_lastSetByScript]
  · simp only [reconcile, hrun, hres, hok, hplay, getSpotifyTrack, osascript,
      htrack, hset, Except.map]
    repeat' split
    all_goals simp_all [saveStamp, updateForeignCache_lastSetByScript]

/-- C5 witness: two transport failures then a parsed response give 3 attempts
with delays 250 and 500 ms; three failures give a run with no set call, no
cache write and exit code 1. -/
theorem c5_witness :
    getSlackProfileWithRetry
        (fun i => if i == 3 then .ok emptyOkResponse else .error "boom") =
      { result := .ok emptyOkResponse, attemptsMade := 3, delays := [250, 500] }
  ∧ (reconcile exampleRuntimeConfig
        { exampleEnv with profileAttempts := fun _ => .error "boom" }
        (freshCache 900)).setCalls = [] :=
  ⟨c5_profile_read_retry.2.2.2.1
      (fun i => if i == 3 then .ok emptyOkResponse else .error "boom")
      "boom" "boom" emptyOkResponse rfl rfl rfl,
   (c5_profile_read_retry.2.2.2.2.2.2 exampleRuntimeConfig
      { exampleEnv with profileAttempts := fun _ => .error "boom" }
      (freshCache 900) "boom" rfl rfl).1⟩

/-- C6 witness: Scenario D — empty status, playing, set succeeding: one set
call with the track, configured emoji and `now + ttl`, and the second save
records `lastSetByScript` with exactly those values. -/
theorem c6_witness :
    (reconcile exampleRuntimeConfig exampleEnv (freshCache 900)).setCalls =
      [{ status_text := "Artist - Track", status_emoji := ":headphones:"
         status_expiration := 1120 }]
  ∧ (reconcile exampleRuntimeConfig exampleEnv
        (freshCache 900)).savedCaches.map Cache.lastSetByScript =
      [none,
       some { text := "Artist - Track", emoji := ":headphones:"
              expiration := 1120, setAt := 1000 }] :=
  ⟨(c6_set_call_and_cache exampleRuntimeConfig exampleEnv (freshCache 900)
      emptyOkResponse "Artist - Track" rfl rfl rfl rfl (by decide) rfl).1,
   (c6_set_call_and_cache exampleRuntimeConfig exampleEnv (freshCache 900)
      emptyOkResponse "Artist - Track" rfl rfl rfl rfl (by decide) rfl).2.2
      { ok := true, error := none } rfl rfl⟩

/-- C10: a profile read returning `ok:true` with absent profile object or
absent status fields yields the snapshot `("", "", 0)`, which is classified
empty and safe to override; hence with the player playing (and the track
query succeeding) the run issues the status-set call. -/
theorem c10_missing_profile_fields (rc : RuntimeConfig) (env : Env)
    (cache : Cache) (r : ProfileGetResponse)
    (hrun : isSpotifyRunning env.pgrep = true)
    (hres : (getSlackProfileWithRetry env.profileAttempts).result = .ok r)
    (hok : r.ok = true)
    (htext : r.profile.bind SlackProfile.status_text = none)
    (hemoji : r.profile.bind SlackProfile.status_emoji = none)
    (hexp : r.profile.bind SlackProfile.status_expiration = none) :
    statusTextOf r = "" ∧ statusEmojiOf r = "" ∧ statusExpirationOf r = 0
  ∧ isEmptySlackStatus (statusTextOf r) (statusEmojiOf r) = true
  ∧ isSafeToOverrideWhenPlayingTrack (statusTextOf r) (statusEmojiOf r) = true
  ∧ (getSpotifyState env.stateExec = SpotifyState.playing →
      ∀ s, env.trackExec = .ok s →
      (reconcile rc env cache).setCalls.length = 1) := by
  have ht : statusTextOf r = "" := by
    unfold statusTextOf
    rw [htext]
    exact rfl
  have he : statusEmojiOf r = "" := by
    unfold statusEmojiOf
    rw [hemoji]
    exact rfl
  have hx : statusExpirationOf r = 0 := by
    unfold statusExpirationOf
    rw [hexp]
    exact rfl
  refine ⟨ht, he, hx, by rw [ht, he]; decide, by rw [ht, he]; decide,
    fun hplay s htrack => ?_⟩
  simp only [reconcile, hrun, hres, hok, hplay, getSpotifyTrack, osascript,
    htrack, Except.map]
  repeat' split
  all_goals simp_all [isSafeToOverrideWhenPlayingTrack]

/-- C10 witness: the happy-path environment returns `ok:true` with no profile
object; the snapshot is classified empty and exactly one set call is made. -/
theorem c10_witness :
    isEmptySlackStatus (statusTextOf emptyOkResponse)
        (statusEmojiOf emptyOkResponse) = true
  ∧ (reconcile exampleRuntimeConfig exampleEnv
        (freshCache 900)).setCalls.length = 1 :=
  ⟨(c10_missing_profile_fields exampleRuntimeConfig exampleEnv (freshCache 900)
      emptyOkResponse rfl rfl rfl rfl rfl rfl).2.2.2.1,
   (c10_missing_profile_fields exampleRuntimeConfig exampleEnv (freshCache 900)
      emptyOkResponse rfl rfl rfl rfl rfl rfl).2.2.2.2.2 rfl
      "Artist - Track" rfl⟩

/-- C1, counterexample: in an environment where Spotify is running, the read
returns `ok:true`, the player is playing and the snapshot is empty (safe),
the claimed condition holds — yet no status-set call is issued, because the
track query throws and the exception aborts the run. -/
theorem c1_counterexample :
    claimedSetCondition exampleRuntimeConfig
        { exampleEnv with trackExec := .error "AppleScript error" } = true
  ∧ (reconcile exampleRuntimeConfig
        { exampleEnv with trackExec := .error "AppleScript error" }
        (freshCache 900)).setCalls.length = 0 := by
  decide

theorem bool_gate_tauto {a b c : Bool}
    (h : a = false → b = false → c = true) :
    (a = true ∨ b = true) ∨ c = true := by
  cases a
  · cases b
    · exact Or.inr (h rfl rfl)
    · exact Or.inl (Or.inr rfl)
  · exact Or.inl (Or.inl rfl)

/-- C1, amended: exactly one status-set call is issued iff Spotify is
running, the read succeeds with `ok:true`, the player state is exactly
`"playing"`, the snapshot is safe-to-override or owned or `alwaysOverride`
is set, AND the track query succeeds; in every other case the run ends with
no set call. -/
theorem c1_amended_set_call_iff (rc : RuntimeConfig) (env : Env)
    (cache : Cache) :
    (reconcile rc env cache).setCalls.length = 1 ↔
      (claimedSetCondition rc env = true
        ∧ ∃ s, getSpotifyTrack env.trackExec = .ok s) := by
  simp only [reconcile, claimedSetCondition]
  repeat' split
  all_goals simp_all
  all_goals exact bool_gate_tauto (by assumption)

theorem setByScript_withEmptyRead (c : Cache) (e : Option EmptyReadEntry)
    (x : Option SetByScriptEntry) :
    { withEmptyRead c e with lastSetByScript := x } =
      withEmptyRead { c with lastSetByScript := x } e :=
  rfl

set_option maxHeartbeats 2000000 in
/-- C8: the run never reads or writes the cache's `emptyRead` field and its
decision ignores `requireTwoEmptyReadsBeforeOverride` and
`emptyReadConfirmWindowSeconds` — changing those two config fields leaves
the whole run result unchanged; changing the incoming `emptyRead` value
changes nothing but that carried field; and every persisted cache carries
the loaded cache's `emptyRead` unchanged. -/
theorem c8_emptyread_noninterference :
    (∀ (env : Env) (c : Config) (b : Option Bool) (w : Option ℤ),
      mainRun (envWithConfig env (Except.ok (configSettingFlags c b w))) =
        mainRun (envWithConfig env (Except.ok c)))
  ∧ (∀ (rc : RuntimeConfig) (env : Env) (cache : Cache)
        (e : Option EmptyReadEntry),
      reconcile rc env (withEmptyRead cache e) =
        withEmptyReadResult (reconcile rc env cache) e)
  ∧ (∀ (rc : RuntimeConfig) (env : Env) (cache : Cache),
      (reconcile rc env cache).savedCaches.map Cache.emptyRead =
        List.replicate (reconcile rc env cache).savedCaches.length
          cache.emptyRead) := by
  refine ⟨fun env c b w => ?_, fun rc env cache e => ?_,
    fun rc env cache => ?_⟩
  · obtain ⟨rd, cl, cf, pg, stx, pa, tx, sc, cen, now⟩ := env
    obtain ⟨tok, pis, semo, suni, ttl, ao, rt, ec, cma, lml, lkl, sol, sel⟩ := c
    rfl
  · simp only [reconcile]
    repeat' split
    all_goals simp_all [withEmptyReadResult,
      updateForeignCache_withEmptyRead, saveStamp_withEmptyRead,
      setByScript_withEmptyRead]
  · simp only [reconcile]
    repeat' split
    all_goals simp_all [saveStamp, updateForeignCache_emptyRead,
      List.replicate]

/-- C7, counterexample: the claim says only config-load failure exits
non-zero, but a run whose config loads fine and whose three profile reads
all fail transport-wise also sets exit code 1; likewise a track-query
failure (a player query) is not recovered locally — it aborts the run with
exit code 1 instead of steering to a no-op. -/
theorem c7_counterexample :
    (mainRun { exampleEnv with profileAttempts := fun _ => .error "boom"
             }).exitCode = 1
  ∧ (∃ c, ({ exampleEnv with profileAttempts := fun _ => .error "boom" } :
        Env).configLoad = .ok c)
  ∧ (mainRun { exampleEnv with trackExec := .error "AppleScript error"
             }).exitCode = 1
  ∧ (mainRun { exampleEnv with trackExec := .error "AppleScript error"
             }).setCalls = [] :=
  ⟨by decide, ⟨exampleConfig, rfl⟩, by decide, by decide⟩

/-- C7, amended: a failed running check is treated as not running and a
failed state query as `"unknown"`; config-load failure makes the run exit
non-zero before any player or remote interaction; but remote-read retry
exhaustion and a track-query failure are NOT merely logged no-ops — each
reaches the top-level catch, exits non-zero and issues no set call, and a
set call whose response fails to parse exits non-zero after the single set
call was already issued. -/
theorem c7_amended :
    (∀ e, isSpotifyRunning (.error e) = false)
  ∧ (∀ e, getSpotifyState (.error e) = SpotifyState.unknown)
  ∧ (∀ (env : Env) e, env.configLoad = .error e →
      mainRun env =
        { profileReadAttempts := 0, readDelays := [], setCalls := []
          savedCaches := [], finalCache := none, exitCode := 1 })
  ∧ (∀ (rc : RuntimeConfig) (env : Env) (cache : Cache) e,
      isSpotifyRunning env.pgrep = true →
      (getSlackProfileWithRetry env.profileAttempts).result = .error e →
      (reconcile rc env cache).exitCode = 1
        ∧ (reconcile rc env cache).setCalls = [])
  ∧ (∀ (rc : RuntimeConfig) (env : Env) (cache : Cache) e,
      getSpotifyTrack env.trackExec = .error e →
      (reconcile rc env cache).setCalls = [])
  ∧ (∀ (rc : RuntimeConfig) (env : Env) (cache : Cache)
        (r : ProfileGetResponse) e,
      isSpotifyRunning env.pgrep = true →
      (getSlackProfileWithRetry env.profileAttempts).result = .ok r →
      r.ok = true →
      getSpotifyState env.stateExec = SpotifyState.playing →
      (isSafeToOverrideWhenPlayingTrack (statusTextOf r) (statusEmojiOf r)
        || isStatusOwnedByScript (statusTextOf r) (statusEmojiOf r)
            rc.toStatusEmojiConfig
        || rc.alwaysOverride) = true →
      env.trackExec = .error e →
      (reconcile rc env cache).exitCode = 1
        ∧ (reconcile rc env cache).setCalls = [])
  ∧ (∀ (rc : RuntimeConfig) (env : Env) (cache : Cache)
        (r : ProfileGetResponse) (s : String) e,
      isSpotifyRunning env.pgrep = true →
      (getSlackProfileWithRetry env.profileAttempts).result = .ok r →
      r.ok = true →
      getSpotifyState env.stateExec = SpotifyState.playing →
      (isSafeToOverrideWhenPlayingTrack (statusTextOf r) (statusEmojiOf r)
        || isStatusOwnedByScript (statusTextOf r) (statusEmojiOf r)
            rc.toStatusEmojiConfig
        || rc.alwaysOverride) = true →
      env.trackExec = .ok s → env.setCall = .error e →
      (reconcile rc env cache).exitCode = 1
        ∧ (reconcile rc env cache).setCalls.length = 1) := by
  refine ⟨fun e => rfl, fun e => rfl, fun env e h => ?_,
    fun rc env cache e hrun hres => ?_, fun rc env cache e htrack => ?_,
    fun rc env cache r e hrun hres hok hplay hgate htrack => ?_,
    fun rc env cache r s e hrun hres hok hplay hgate htrack hset => ?_⟩
  · simp [mainRun, h]
  · simp [reconcile, hrun, hres]
  · simp only [reconcile]
    repeat' split
    all_goals simp_all
  · simp only [reconcile, hrun, hres, hok, hplay, getSpotifyTrack, osascript,
      htrack, Except.map]
    repeat' split
    all_goals simp_all
  · simp only [reconcile, hrun, hres, hok, hplay, getSpotifyTrack, osascript,
      htrack, hset, Except.map]
    repeat' split
    all_goals simp_all

/-- C7 witness: failed player queries recover to `false`/`unknown`; a
missing config exits 1; retry exhaustion exits 1 with no set call. -/
theorem c7_witness :
    isSpotifyRunning (Except.error "pgrep failed") = false
  ∧ getSpotifyState (Except.error "osascript failed") = SpotifyState.unknown
  ∧ (mainRun { exampleEnv with configLoad := .error "No config found."
             }).exitCode = 1
  ∧ (reconcile exampleRuntimeConfig
        { exampleEnv with profileAttempts := fun _ => .error "down" }
        (freshCache 900)).exitCode = 1 :=
  ⟨c7_amended.1 "pgrep failed", c7_amended.2.1 "osascript failed",
   by rw [c7_amended.2.2.1
      { exampleEnv with configLoad := .error "No config found." }
      "No config found." rfl],
   (c7_amended.2.2.2.1 exampleRuntimeConfig
      { exampleEnv with profileAttempts := fun _ => .error "down" }
      (freshCache 900) "down" rfl rfl).1⟩
